import Mathlib

/-!
Shallow embedding of `src/backend/routers/announcements.py`, the announcements
router of a school management API, together with theorems checking the
natural-language specification against it.

Modelling conventions:
* The Mongo collections are modelled by `DB`: a list of announcement documents,
  the list of teacher usernames (the `_id` values of `teachers_collection`), and
  a counter from which the store derives fresh `ObjectId`s.
* Python `datetime` is external to the repository.  A date string is modelled by
  `DateStr`: its raw text (used wherever the code compares strings — the Mongo
  `$gte` query and the `start_date <= current_time` comparison in
  `get_active_announcements`) together with the outcome of
  `datetime.fromisoformat(raw.replace("Z", "+00:00"))`: a `ValueError`
  (`ParseOut.err`), an offset-naive datetime (`ParseOut.naive t`, `t` the
  instant on the naive timeline), or an offset-aware one (`ParseOut.aware t`).
  Comparing an offset-aware datetime with the offset-naive `datetime.now()`
  raises `TypeError`, which no handler in the router catches.
* Each route handler becomes a pure function from its inputs and the current
  instant (`now : Int` with its ISO rendering `nowIso : String`, standing for
  the `datetime.now()` calls of one request) and the pre-state `DB` to an
  `Outcome` paired with the post-state.  `Outcome.httpError` is a raised
  `HTTPException`, `Outcome.pyError` an uncaught Python exception.
-/

namespace Announcements

/-- Result of `datetime.fromisoformat` on a date string (after the code's
`replace("Z", "+00:00")`): failure, an offset-naive datetime, or an
offset-aware datetime. -/
inductive ParseOut : Type
  | err : ParseOut
  | naive (t : Int) : ParseOut
  | aware (t : Int) : ParseOut
deriving DecidableEq, Repr

/-- A date string as the code sees it: the raw text (compared lexicographically
by Mongo and by Python string comparison) and its parse outcome. -/
structure DateStr : Type where
  raw : String
  parse : ParseOut
deriving DecidableEq, Repr

/-- A stored announcement document.  `oid` is the Mongo `_id` (an `ObjectId`
rendered as its 24-hex-digit string). -/
structure Doc : Type where
  oid : String
  message : String
  start_date : Option DateStr
  expiration_date : DateStr
  created_by : String
  created_at : String
deriving DecidableEq, Repr

/-- An announcement as returned to the caller: the document with `_id` popped
and re-exposed as the string field `id`. -/
structure AnnOut : Type where
  id : String
  message : String
  start_date : Option DateStr
  expiration_date : DateStr
  created_by : String
  created_at : String
deriving DecidableEq, Repr

/-- `announcement["id"] = str(announcement.pop("_id"))`. -/
def toOut (d : Doc) : AnnOut :=
  { id := d.oid, message := d.message, start_date := d.start_date,
    expiration_date := d.expiration_date, created_by := d.created_by,
    created_at := d.created_at }

/-- The persistent state: `announcements_collection`, the usernames present in
`teachers_collection`, and the store's fresh-`ObjectId` source. -/
structure DB : Type where
  docs : List Doc
  teachers : List String
  counter : Nat
deriving DecidableEq, Repr

/-- Result of one request: a successful value, a raised `HTTPException`
(status code and detail), or an uncaught Python exception. -/
inductive Outcome (α : Type) : Type
  | ok (a : α) : Outcome α
  | httpError (status : Nat) (detail : String) : Outcome α
  | pyError (name : String) : Outcome α
deriving DecidableEq, Repr

/-- A fresh `ObjectId` string assigned by the store: 24 hex digits. -/
def freshOid (n : Nat) : String :=
  let ds := Nat.toDigits 16 n
  String.mk (List.replicate (24 - ds.length) '0' ++ ds)

/-- One hexadecimal character, as accepted by `bson.ObjectId`. -/
def isHexChar (c : Char) : Bool :=
  c.isDigit || ('a' ≤ c && c ≤ 'f') || ('A' ≤ c && c ≤ 'F')

/-- `bson.ObjectId(s)` succeeds on a string exactly when it is 24 hex digits;
otherwise the constructor raises and the router answers 400. -/
def isValidOid (s : String) : Bool :=
  s.length == 24 && s.data.all isHexChar

/-- Request body of `POST /announcements` (`AnnouncementCreate`). -/
structure AnnouncementCreate : Type where
  message : String
  start_date : Option DateStr
  expiration_date : DateStr
deriving DecidableEq, Repr

/-- Request body of `PUT /announcements/{id}` (`AnnouncementUpdate`). -/
structure AnnouncementUpdate : Type where
  message : Option String
  start_date : Option DateStr
  expiration_date : Option DateStr
deriving DecidableEq, Repr

/-- The teacher-authentication prologue shared verbatim by the four
authenticated handlers: `if not teacher_username` (the empty string is falsy)
then 401 missing-credential, else `teachers_collection.find_one` and 401
invalid-credential when no entry matches. -/
def authError (teacher_username : String) (db : DB) : Option (Nat × String) :=
  if teacher_username = "" then
    some (401, "Authentication required for this action")
  else if db.teachers.contains teacher_username then
    none
  else
    some (401, "Invalid teacher credentials")

/-- Lexicographic order on character lists by code point: how Python compares
strings and how Mongo compares the (ASCII) date strings of this router. -/
def lexLeB : List Char → List Char → Bool
  | [], _ => true
  | _ :: _, [] => false
  | a :: as, b :: bs => decide (a < b) || (a == b && lexLeB as bs)

/-- Python / Mongo string comparison `a <= b`. -/
def strLe (a b : String) : Bool :=
  lexLeB a.data b.data

theorem lexLeB_total : ∀ a b, lexLeB a b = true ∨ lexLeB b a = true := by
  intro a
  induction a with
  | nil => intro b; exact Or.inl rfl
  | cons x xs ih =>
    intro b
    cases b with
    | nil => exact Or.inr rfl
    | cons y ys =>
      rcases lt_trichotomy x y with h | h | h
      · left; simp [lexLeB, h]
      · subst h
        rcases ih ys with h2 | h2
        · left; simp [lexLeB, h2]
        · right; simp [lexLeB, h2]
      · right; simp [lexLeB, h]

theorem lexLeB_trans :
    ∀ a b c, lexLeB a b = true → lexLeB b c = true → lexLeB a c = true := by
  intro a
  induction a with
  | nil => intro b c _ _; rfl
  | cons x xs ih =>
    intro b c hab hbc
    cases b with
    | nil => simp [lexLeB] at hab
    | cons y ys =>
      cases c with
      | nil => simp [lexLeB] at hbc
      | cons z zs =>
        simp only [lexLeB, Bool.or_eq_true, Bool.and_eq_true,
          decide_eq_true_iff, beq_iff_eq] at hab hbc ⊢
        rcases hab with h1 | ⟨h1, h1r⟩
        · rcases hbc with h2 | ⟨h2, h2r⟩
          · exact Or.inl (lt_trans h1 h2)
          · subst h2; exact Or.inl h1
        · subst h1
          rcases hbc with h2 | ⟨h2, h2r⟩
          · exact Or.inl h2
          · subst h2; exact Or.inr ⟨rfl, ih _ _ h1r h2r⟩

/-- The Mongo query `{"expiration_date": {"$gte": current_time}}`:
lexicographic comparison of the stored string with `now.isoformat()`. -/
def activeQuery (nowIso : String) (d : Doc) : Bool :=
  strLe nowIso d.expiration_date.raw

/-- The Python filter `start_date is None or start_date <= current_time`
(string comparison). -/
def startOk (nowIso : String) (d : Doc) : Bool :=
  match d.start_date with
  | none => true
  | some s => strLe s.raw nowIso

/-- Sort order of `.sort("created_at", -1)`: `created_at` descending. -/
def byCreatedAtDesc (a b : Doc) : Prop :=
  strLe b.created_at a.created_at = true

instance : DecidableRel byCreatedAtDesc :=
  fun a b => inferInstanceAs (Decidable (strLe b.created_at a.created_at = true))

instance : IsTotal Doc byCreatedAtDesc :=
  ⟨fun a b => lexLeB_total b.created_at.data a.created_at.data⟩

instance : IsTrans Doc byCreatedAtDesc :=
  ⟨fun _ b _ h1 h2 => lexLeB_trans _ b.created_at.data _ h2 h1⟩

/-- `find(...).sort("created_at", -1)` on a list of documents. -/
def sortDesc (l : List Doc) : List Doc :=
  l.insertionSort byCreatedAtDesc

/-- `GET /announcements/active`.  No authentication parameter; reads
`current_time = datetime.now().isoformat()`, queries documents with
`expiration_date >= current_time`, sorts by `created_at` descending, then keeps
those with `start_date` unset or `start_date <= current_time`. -/
def get_active_announcements (nowIso : String) (db : DB) :
    Outcome (List AnnOut) × DB :=
  (Outcome.ok
    (((sortDesc (db.docs.filter (activeQuery nowIso))).filter
        (startOk nowIso)).map toOut),
   db)

/-- `GET /announcements` / `GET /announcements/`.  `teacher_username` is an
optional query parameter (`None` when absent); `None` and `""` are both falsy
and yield the missing-credential 401. -/
def get_all_announcements (teacher_username : Option String) (db : DB) :
    Outcome (List AnnOut) × DB :=
  match authError (teacher_username.getD "") db with
  | some (s, m) => (Outcome.httpError s m, db)
  | none => (Outcome.ok ((sortDesc db.docs).map toOut), db)

/-- `POST /announcements`.  After authentication: parse `expiration_date`
(`ValueError` is caught as a 400, an offset-aware result raises `TypeError` at
the `expiration < datetime.now()` comparison), reject `expiration < now`; when
`start_date` is truthy (non-`None` and non-empty) parse it and reject
`start >= expiration`; then insert the document with `created_by` and
`created_at` and return it with its assigned id. -/
def create_announcement (now : Int) (nowIso : String)
    (announcement : AnnouncementCreate) (teacher_username : String) (db : DB) :
    Outcome AnnOut × DB :=
  match authError teacher_username db with
  | some (s, m) => (Outcome.httpError s m, db)
  | none =>
    let doInsert : Outcome AnnOut × DB :=
      let d : Doc :=
        { oid := freshOid db.counter, message := announcement.message,
          start_date := announcement.start_date,
          expiration_date := announcement.expiration_date,
          created_by := teacher_username, created_at := nowIso }
      (Outcome.ok (toOut d),
       { db with docs := db.docs ++ [d], counter := db.counter + 1 })
    match announcement.expiration_date.parse with
    | ParseOut.err =>
        (Outcome.httpError 400
          "Invalid date format. Use ISO format (YYYY-MM-DDTHH:MM:SS)", db)
    | ParseOut.aware _ => (Outcome.pyError "TypeError", db)
    | ParseOut.naive te =>
      if te < now then
        (Outcome.httpError 400 "Expiration date must be in the future", db)
      else
        match announcement.start_date with
        | none => doInsert
        | some s =>
          if s.raw = "" then doInsert
          else
            match s.parse with
            | ParseOut.err =>
                (Outcome.httpError 400
                  "Invalid date format. Use ISO format (YYYY-MM-DDTHH:MM:SS)",
                 db)
            | ParseOut.aware _ => (Outcome.pyError "TypeError", db)
            | ParseOut.naive ts =>
              if te ≤ ts then
                (Outcome.httpError 400
                  "Start date must be before expiration date", db)
              else doInsert

/-- The partial `$set` document built by `update_announcement`. -/
structure UpdateDoc : Type where
  message : Option String
  start_date : Option DateStr
  expiration_date : Option DateStr
deriving DecidableEq, Repr

/-- `if not update_doc` — every optional field absent. -/
def UpdateDoc.isEmpty (u : UpdateDoc) : Bool :=
  u.message.isNone && u.start_date.isNone && u.expiration_date.isNone

/-- Mongo `$set` merge: each present patch field overwrites, the rest of the
document is kept. -/
def applyPatch (p : UpdateDoc) (d : Doc) : Doc :=
  { d with
    message := p.message.getD d.message,
    start_date :=
      match p.start_date with
      | some s => some s
      | none => d.start_date,
    expiration_date := p.expiration_date.getD d.expiration_date }

/-- `update_one({"_id": oid}, {"$set": patch})`: patch the first matching
document. -/
def updateFirst (oid : String) (p : UpdateDoc) : List Doc → List Doc
  | [] => []
  | d :: ds =>
    if d.oid = oid then applyPatch p d :: ds else d :: updateFirst oid p ds

/-- `find_one({"_id": oid})`. -/
def findOne (oid : String) (db : DB) : Option Doc :=
  db.docs.find? (fun d => d.oid == oid)

/-- `PUT /announcements/{announcement_id}`.  After authentication: 400 on a
malformed id, 404 when no document matches, then build the `$set` document —
`message` and `start_date` are copied unvalidated when not `None`;
`expiration_date`, when present, is parsed (`ValueError` → 400, offset-aware →
uncaught `TypeError`) and rejected when `expiration < now`.  An empty `$set`
document is a 400; otherwise the first matching document is patched (the
`matched_count`/`modified_count` guard cannot fire here since the document was
just found, and the re-fetch cannot miss) and returned. -/
def update_announcement (now : Int) (announcement_id : String)
    (announcement : AnnouncementUpdate) (teacher_username : String) (db : DB) :
    Outcome AnnOut × DB :=
  match authError teacher_username db with
  | some (s, m) => (Outcome.httpError s m, db)
  | none =>
    if isValidOid announcement_id = false then
      (Outcome.httpError 400 "Invalid announcement ID", db)
    else
      match findOne announcement_id db with
      | none => (Outcome.httpError 404 "Announcement not found", db)
      | some _ =>
        let validated : Outcome UpdateDoc :=
          match announcement.expiration_date with
          | none =>
              Outcome.ok
                { message := announcement.message,
                  start_date := announcement.start_date,
                  expiration_date := none }
          | some e =>
            match e.parse with
            | ParseOut.err =>
                Outcome.httpError 400
                  "Invalid date format. Use ISO format (YYYY-MM-DDTHH:MM:SS)"
            | ParseOut.aware _ => Outcome.pyError "TypeError"
            | ParseOut.naive te =>
              if te < now then
                Outcome.httpError 400 "Expiration date must be in the future"
              else
                Outcome.ok
                  { message := announcement.message,
                    start_date := announcement.start_date,
                    expiration_date := some e }
        match validated with
        | Outcome.httpError s m => (Outcome.httpError s m, db)
        | Outcome.pyError n => (Outcome.pyError n, db)
        | Outcome.ok upd =>
          if upd.isEmpty then
            (Outcome.httpError 400 "No fields to update", db)
          else
            let matched : Nat :=
              if db.docs.any (fun d => d.oid == announcement_id) then 1 else 0
            let db' : DB :=
              { db with docs := updateFirst announcement_id upd db.docs }
            if matched = 0 then
              (Outcome.httpError 500 "Failed to update announcement", db')
            else
              match findOne announcement_id db' with
              | none => (Outcome.pyError "AttributeError", db')
              | some u => (Outcome.ok (toOut u), db')

/-- `DELETE /announcements/{announcement_id}`.  After authentication: 400 on a
malformed id, then `delete_one` removes the first matching document; a zero
`deleted_count` is a 404, otherwise the confirmation message is returned. -/
def delete_announcement (announcement_id : String) (teacher_username : String)
    (db : DB) : Outcome String × DB :=
  match authError teacher_username db with
  | some (s, m) => (Outcome.httpError s m, db)
  | none =>
    if isValidOid announcement_id = false then
      (Outcome.httpError 400 "Invalid announcement ID", db)
    else
      let deletedCount : Nat :=
        if db.docs.any (fun d => d.oid == announcement_id) then 1 else 0
      let db' : DB :=
        { db with docs := db.docs.eraseP (fun d => d.oid == announcement_id) }
      if deletedCount = 0 then
        (Outcome.httpError 404 "Announcement not found", db')
      else
        (Outcome.ok "Announcement deleted successfully", db')

/-! ### Derived notions used by the specification claims -/

/-- Sort order of the returned announcement objects: `created_at` descending. -/
def outDesc (a b : AnnOut) : Prop :=
  strLe b.created_at a.created_at = true

/-- The data-model ordering invariant for one stored document: when
`start_date` is present, `start_date < expiration_date` on the stored
ISO-8601 string values. -/
def docOrderedB (d : Doc) : Bool :=
  match d.start_date with
  | none => true
  | some s => !(strLe d.expiration_date.raw s.raw)

/-- The data-model ordering invariant over the whole store. -/
def Inv (db : DB) : Prop :=
  ∀ d ∈ db.docs, docOrderedB d = true

instance (db : DB) : Decidable (Inv db) :=
  inferInstanceAs (Decidable (∀ d ∈ db.docs, docOrderedB d = true))

/-! ### Helper lemmas -/

theorem toOut_injective : Function.Injective toOut := by
  intro a b h
  cases a
  cases b
  simpa [toOut, AnnOut.mk.injEq, Doc.mk.injEq] using h

theorem startOk_iff (nowIso : String) (d : Doc) :
    startOk nowIso d = true ↔
      (d.start_date = none ∨
        ∃ s, d.start_date = some s ∧ strLe s.raw nowIso = true) := by
  unfold startOk
  cases h : d.start_date with
  | none => simp
  | some s => simp

theorem mem_sortDesc {a : Doc} {l : List Doc} : a ∈ sortDesc l ↔ a ∈ l :=
  List.mem_insertionSort byCreatedAtDesc

theorem sorted_sortDesc (l : List Doc) : (sortDesc l).Pairwise byCreatedAtDesc :=
  List.sorted_insertionSort byCreatedAtDesc l

theorem authError_empty (db : DB) :
    authError "" db = some (401, "Authentication required for this action") := rfl

theorem authError_invalid {u : String} (db : DB) (hu : u ≠ "")
    (ht : db.teachers.contains u = false) :
    authError u db = some (401, "Invalid teacher credentials") := by
  have hm : u ∉ db.teachers := by simpa using ht
  simp [authError, hu, hm]

theorem authError_ok {u : String} (db : DB) (hu : u ≠ "")
    (ht : db.teachers.contains u = true) :
    authError u db = none := by
  have hm : u ∈ db.teachers := by simpa using ht
  simp [authError, hu, hm]

theorem applyPatch_oid (p : UpdateDoc) (d : Doc) : (applyPatch p d).oid = d.oid := rfl

theorem find?_updateFirst (i : String) (p : UpdateDoc) :
    ∀ (l : List Doc) (a : Doc), l.find? (fun d => d.oid == i) = some a →
      (updateFirst i p l).find? (fun d => d.oid == i) = some (applyPatch p a) := by
  intro l
  induction l with
  | nil => intro a h; simp at h
  | cons d ds ih =>
    intro a h
    by_cases hd : d.oid = i
    · have hb : (d.oid == i) = true := by simpa using hd
      rw [List.find?_cons, hb] at h
      obtain rfl : d = a := Option.some.inj h
      have hb' : ((applyPatch p d).oid == i) = true := by
        rw [applyPatch_oid]; exact hb
      simp only [updateFirst, if_pos hd]
      rw [List.find?_cons, hb']
    · have hb : (d.oid == i) = false := by simpa using hd
      rw [List.find?_cons, hb] at h
      simp only [updateFirst, if_neg hd]
      rw [List.find?_cons, hb]
      exact ih a h

theorem any_oid_of_findOne {i : String} {db : DB} {a : Doc}
    (h : findOne i db = some a) :
    db.docs.any (fun d => d.oid == i) = true := by
  unfold findOne at h
  have hp := List.find?_some h
  rw [List.any_eq_true]
  exact ⟨a, List.mem_of_find?_eq_some h, hp⟩

/-! ### Concrete fixtures used by witnesses and counterexamples

The date strings below behave in Python exactly as their `parse` fields say:
each offset-naive string parses with `datetime.fromisoformat`, the `Z`-suffixed
string parses to an offset-aware datetime after the code's
`replace("Z", "+00:00")`, and the empty string raises `ValueError`.  The
integer instants respect the real chronological order of the strings. -/

/-- An empty store knowing the single teacher `alice`. -/
def db0 : DB := { docs := [], teachers := ["alice"], counter := 0 }

def sA : DateStr := { raw := "2030-01-01T00:00:00", parse := ParseOut.naive 1000 }

def eA : DateStr := { raw := "2030-06-01T00:00:00", parse := ParseOut.naive 2000 }

def sLate : DateStr := { raw := "2031-01-01T00:00:00", parse := ParseOut.naive 3000 }

def eEarly : DateStr := { raw := "2029-12-15T00:00:00", parse := ParseOut.naive 900 }

def eZ : DateStr := { raw := "2031-06-01T00:00:00Z", parse := ParseOut.aware 3200 }

def emptyDate : DateStr := { raw := "", parse := ParseOut.err }

/-- A stored announcement with `start_date` strictly before `expiration_date`. -/
def dA : Doc :=
  { oid := "000000000000000000000000", message := "m", start_date := some sA,
    expiration_date := eA, created_by := "alice",
    created_at := "2029-12-01T00:00:00" }

/-- A store holding `dA`, knowing the single teacher `alice`. -/
def dbA : DB := { docs := [dA], teachers := ["alice"], counter := 1 }

/-! ### Claims -/

/-- C1: for every announcement in the store, list-active includes it iff its
`expiration_date >= now` and (`start_date` absent or `start_date <= now`),
comparisons on the ISO-8601 string values; list-active performs no
authentication check (it has no requester parameter and always answers
`Outcome.ok`, never a 401) and does not modify the store. -/
theorem C1_list_active_contract (nowIso : String) (db : DB) :
    ∃ l, get_active_announcements nowIso db = (Outcome.ok l, db) ∧
      ∀ a ∈ db.docs,
        (toOut a ∈ l ↔
          (strLe nowIso a.expiration_date.raw = true ∧
            (a.start_date = none ∨
              ∃ s, a.start_date = some s ∧ strLe s.raw nowIso = true))) := by
  refine ⟨_, rfl, ?_⟩
  intro a ha
  rw [List.mem_map]
  constructor
  · rintro ⟨b, hb, heq⟩
    obtain rfl : b = a := toOut_injective heq
    rw [List.mem_filter] at hb
    obtain ⟨hb1, hp2⟩ := hb
    rw [mem_sortDesc, List.mem_filter] at hb1
    exact ⟨hb1.2, (startOk_iff nowIso _).mp hp2⟩
  · rintro ⟨h1, h2⟩
    refine ⟨a, ?_, rfl⟩
    rw [List.mem_filter, mem_sortDesc, List.mem_filter]
    exact ⟨⟨ha, h1⟩, (startOk_iff nowIso a).mpr h2⟩

/-- Witness for C1 at a concrete instant and store. -/
theorem C1_list_active_contract_witness :
    ∃ l, get_active_announcements "2030-02-01T00:00:00" dbA = (Outcome.ok l, dbA) ∧
      ∀ a ∈ dbA.docs,
        (toOut a ∈ l ↔
          (strLe "2030-02-01T00:00:00" a.expiration_date.raw = true ∧
            (a.start_date = none ∨
              ∃ s, a.start_date = some s ∧
                strLe s.raw "2030-02-01T00:00:00" = true))) :=
  C1_list_active_contract "2030-02-01T00:00:00" dbA

/-- C9: both list-all and list-active return their announcements ordered by
`created_at` descending (newest first). -/
theorem C9_listings_sorted (nowIso : String) (db : DB) :
    (∀ l, (get_active_announcements nowIso db).1 = Outcome.ok l →
      l.Pairwise outDesc) ∧
    (∀ t l, (get_all_announcements t db).1 = Outcome.ok l →
      l.Pairwise outDesc) := by
  constructor
  · intro l hl
    have hl' :
        ((sortDesc (db.docs.filter (activeQuery nowIso))).filter
          (startOk nowIso)).map toOut = l := by
      simpa [get_active_announcements] using hl
    subst hl'
    rw [List.pairwise_map]
    exact (List.Pairwise.sublist (List.filter_sublist _)
      (sorted_sortDesc _)).imp (fun h => h)
  · intro t l hl
    unfold get_all_announcements at hl
    cases h : authError (t.getD "") db with
    | some sm =>
      obtain ⟨s, m⟩ := sm
      rw [h] at hl
      simp at hl
    | none =>
      rw [h] at hl
      have hl' : (sortDesc db.docs).map toOut = l := by simpa using hl
      subst hl'
      rw [List.pairwise_map]
      exact (sorted_sortDesc _).imp (fun h => h)

/-- Witness for C9: the concrete output of list-active on `dbA` is sorted. -/
theorem C9_listings_sorted_witness :
    List.Pairwise outDesc [toOut dA] :=
  (C9_listings_sorted "2030-02-01T00:00:00" dbA).1 [toOut dA] rfl

/-- C6: each of list-all, create, update and delete answers 401
"Authentication required for this action" when the requester identifier is
missing or empty, and 401 "Invalid teacher credentials" when it is non-empty
but absent from the teacher directory; the store is unchanged in both cases. -/
theorem C6_authentication (db : DB) (now : Int) (nowIso : String)
    (annc : AnnouncementCreate) (annu : AnnouncementUpdate) (i : String) :
    (get_all_announcements none db =
      (Outcome.httpError 401 "Authentication required for this action", db)) ∧
    (get_all_announcements (some "") db =
      (Outcome.httpError 401 "Authentication required for this action", db)) ∧
    (create_announcement now nowIso annc "" db =
      (Outcome.httpError 401 "Authentication required for this action", db)) ∧
    (update_announcement now i annu "" db =
      (Outcome.httpError 401 "Authentication required for this action", db)) ∧
    (delete_announcement i "" db =
      (Outcome.httpError 401 "Authentication required for this action", db)) ∧
    ∀ u, u ≠ "" → db.teachers.contains u = false →
      (get_all_announcements (some u) db =
        (Outcome.httpError 401 "Invalid teacher credentials", db)) ∧
      (create_announcement now nowIso annc u db =
        (Outcome.httpError 401 "Invalid teacher credentials", db)) ∧
      (update_announcement now i annu u db =
        (Outcome.httpError 401 "Invalid teacher credentials", db)) ∧
      (delete_announcement i u db =
        (Outcome.httpError 401 "Invalid teacher credentials", db)) := by
  refine ⟨rfl, rfl, rfl, rfl, rfl, ?_⟩
  intro u hu ht
  have ha := authError_invalid db hu ht
  exact ⟨by simp [get_all_announcements, ha],
         by simp [create_announcement, ha],
         by simp [update_announcement, ha],
         by simp [delete_announcement, ha]⟩

/-- Witness for C6: the unknown teacher `ghost` is turned away from list-all
with the invalid-credential message and an unchanged store. -/
theorem C6_authentication_witness :
    get_all_announcements (some "ghost") dbA =
      (Outcome.httpError 401 "Invalid teacher credentials", dbA) :=
  ((C6_authentication dbA 0 "" ⟨"", none, emptyDate⟩ ⟨none, none, none⟩
      "").2.2.2.2.2 "ghost" (by decide) (by decide)).1

/-- C8: for an authorized teacher, delete answers 400 on a malformed id, 404
with the store unchanged when the well-formed id matches nothing, and on a
match removes the document and returns the confirmation message. -/
theorem C8_delete_cases (db : DB) (u i : String)
    (hu : u ≠ "") (ht : db.teachers.contains u = true) :
    (isValidOid i = false →
      delete_announcement i u db =
        (Outcome.httpError 400 "Invalid announcement ID", db)) ∧
    ((∀ d ∈ db.docs, d.oid ≠ i) → isValidOid i = true →
      delete_announcement i u db =
        (Outcome.httpError 404 "Announcement not found", db)) ∧
    ((∃ d ∈ db.docs, d.oid = i) → isValidOid i = true →
      delete_announcement i u db =
        (Outcome.ok "Announcement deleted successfully",
         { db with docs := db.docs.eraseP (fun d => d.oid == i) })) := by
  have ha := authError_ok db hu ht
  refine ⟨?_, ?_, ?_⟩
  · intro hv
    simp [delete_announcement, ha, hv]
  · intro hnone hv
    have hany : db.docs.any (fun d => d.oid == i) = false := by
      rw [List.any_eq_false]
      intro d hd
      simpa using hnone d hd
    have herase : db.docs.eraseP (fun d => d.oid == i) = db.docs :=
      List.eraseP_of_forall_not (by intro d hd; simpa using hnone d hd)
    simp [delete_announcement, ha, hv, hany, herase]
  · rintro ⟨d, hd, hoid⟩ hv
    have hany : db.docs.any (fun x => x.oid == i) = true := by
      rw [List.any_eq_true]
      exact ⟨d, hd, by simpa using hoid⟩
    simp [delete_announcement, ha, hv, hany]

/-- Witness for C8: deleting the stored announcement of `dbA` succeeds and
removes it. -/
theorem C8_delete_cases_witness :
    delete_announcement "000000000000000000000000" "alice" dbA =
      (Outcome.ok "Announcement deleted successfully",
       { dbA with
          docs := dbA.docs.eraseP
            (fun d => d.oid == "000000000000000000000000") }) :=
  (C8_delete_cases dbA "alice" "000000000000000000000000" (by decide)
      (by decide)).2.2 ⟨dA, by decide, by decide⟩ (by decide)

/-- C2 counterexample: an `expiration_date` exactly equal to the current
instant is accepted, not rejected: the code only rejects
`expiration < datetime.now()`.  Here `eA` is the instant `2030-06-01T00:00:00`
and the operations are evaluated at exactly that instant, yet create inserts
and returns the announcement and update succeeds. -/
theorem C2_cex_expiration_equal_now_accepted :
    create_announcement 2000 "2030-06-01T00:00:00" ⟨"hi", none, eA⟩ "alice" db0 =
      (Outcome.ok
        { id := "000000000000000000000000", message := "hi", start_date := none,
          expiration_date := eA, created_by := "alice",
          created_at := "2030-06-01T00:00:00" },
       { docs := [{ oid := "000000000000000000000000", message := "hi",
                    start_date := none, expiration_date := eA,
                    created_by := "alice",
                    created_at := "2030-06-01T00:00:00" }],
         teachers := ["alice"], counter := 1 }) ∧
    update_announcement 2000 "000000000000000000000000" ⟨none, none, some eA⟩
        "alice" dbA =
      (Outcome.ok (toOut dA), dbA) :=
  ⟨rfl, rfl⟩

/-- C2 (amended): for an authorized teacher, create — and update supplying an
`expiration_date`, on an existing well-formed id — fails with InvalidInput
"Expiration date must be in the future" whenever the supplied
`expiration_date` parses offset-naive to an instant strictly less than the
current instant, leaving the store unchanged; an instant not strictly less
(in particular one equal to the current instant) passes the check, so a create
without `start_date` then succeeds. -/
theorem C2_amended_expiration_past_rejected (db : DB) (now : Int)
    (nowIso : String) (u i : String) (annc : AnnouncementCreate)
    (annu : AnnouncementUpdate) (e : DateStr) (te : Int)
    (hu : u ≠ "") (ht : db.teachers.contains u = true) :
    (annc.expiration_date.parse = ParseOut.naive te → te < now →
      create_announcement now nowIso annc u db =
        (Outcome.httpError 400 "Expiration date must be in the future", db)) ∧
    (annu.expiration_date = some e → e.parse = ParseOut.naive te → te < now →
      isValidOid i = true → (∃ a, findOne i db = some a) →
      update_announcement now i annu u db =
        (Outcome.httpError 400 "Expiration date must be in the future", db)) ∧
    (annc.expiration_date.parse = ParseOut.naive te → ¬ te < now →
      annc.start_date = none →
      create_announcement now nowIso annc u db =
        (Outcome.ok (toOut
          { oid := freshOid db.counter, message := annc.message,
            start_date := annc.start_date,
            expiration_date := annc.expiration_date, created_by := u,
            created_at := nowIso }),
         { db with
            docs := db.docs ++
              [{ oid := freshOid db.counter, message := annc.message,
                 start_date := annc.start_date,
                 expiration_date := annc.expiration_date, created_by := u,
                 created_at := nowIso }],
            counter := db.counter + 1 })) := by
  have ha := authError_ok db hu ht
  refine ⟨?_, ?_, ?_⟩
  · intro hp hlt
    simp [create_announcement, ha, hp, hlt]
  · rintro he hp hlt hv ⟨a, hfind⟩
    simp [update_announcement, ha, hv, hfind, he, hp, hlt]
  · intro hp hge hs
    simp [create_announcement, ha, hp, hge, hs]

/-- Witness for C2 (amended): a create whose expiration parses strictly in the
past is rejected with the future-date message and an unchanged store. -/
theorem C2_amended_expiration_past_rejected_witness :
    create_announcement 1000 "2030-01-01T00:00:00" ⟨"hi", none, eEarly⟩
        "alice" db0 =
      (Outcome.httpError 400 "Expiration date must be in the future", db0) :=
  (C2_amended_expiration_past_rejected db0 1000 "2030-01-01T00:00:00" "alice"
      "ffffffffffffffffffffffff" ⟨"hi", none, eEarly⟩ ⟨none, none, none⟩
      eEarly 900 (by decide) (by decide)).1 rfl (by decide)

/-- C3 counterexample: update re-checks nothing about `start_date`, so a
successful update can leave the store containing an announcement whose
`start_date` (`2031-01-01`) is after its `expiration_date` (`2030-06-01`),
breaking the claimed store-wide invariant that every operation was said to
preserve. -/
theorem C3_cex_update_breaks_invariant :
    Inv dbA ∧
    update_announcement 1500 "000000000000000000000000"
        ⟨none, some sLate, none⟩ "alice" dbA =
      (Outcome.ok (toOut { dA with start_date := some sLate }),
       { dbA with docs := [{ dA with start_date := some sLate }] }) ∧
    ¬ Inv { dbA with docs := [{ dA with start_date := some sLate }] } := by
  refine ⟨by decide, rfl, by decide⟩

/-- C3 (amended): create, delete and the two listing operations preserve the
start-before-expiration discipline — a successful create appends exactly one
document, and whenever that document carries a non-empty `start_date` both
dates parse offset-naive with the start instant strictly before the expiration
instant; delete only removes documents, and the listings leave the store
untouched.  Update, however, does not preserve the invariant (see the
counterexample). -/
theorem C3_amended_non_update_ops_preserve (db db' : DB) (now : Int)
    (nowIso : String) (u i : String) (annc : AnnouncementCreate)
    (out : AnnOut) (r : Outcome String) :
    (create_announcement now nowIso annc u db = (Outcome.ok out, db') →
      ∃ d, db'.docs = db.docs ++ [d] ∧
        ∀ s, d.start_date = some s → s.raw ≠ "" →
          ∃ ts te, s.parse = ParseOut.naive ts ∧
            d.expiration_date.parse = ParseOut.naive te ∧ ts < te) ∧
    (delete_announcement i u db = (r, db') →
      ∀ d ∈ db'.docs, d ∈ db.docs) ∧
    ((get_active_announcements nowIso db).2 = db) ∧
    (∀ t, (get_all_announcements t db).2 = db) := by
  refine ⟨?_, ?_, rfl, ?_⟩
  · intro h
    cases hauth : authError u db with
    | some sm =>
      obtain ⟨s0, m0⟩ := sm
      simp only [create_announcement, hauth] at h
      simp at h
    | none =>
      cases hp : annc.expiration_date.parse with
      | err =>
        simp only [create_announcement, hauth, hp] at h
        simp at h
      | aware t =>
        simp only [create_announcement, hauth, hp] at h
        simp at h
      | naive te =>
        by_cases hlt : te < now
        · simp only [create_announcement, hauth, hp, if_pos hlt] at h
          simp at h
        · cases hs : annc.start_date with
          | none =>
            simp only [create_announcement, hauth, hp, if_neg hlt, hs] at h
            obtain ⟨h1, h2⟩ := Prod.mk.injEq .. ▸ h
            refine ⟨_, by rw [← h2], ?_⟩
            intro s hsd
            simp at hsd
          | some s =>
            by_cases hse : s.raw = ""
            · simp only [create_announcement, hauth, hp, if_neg hlt, hs,
                if_pos hse] at h
              obtain ⟨h1, h2⟩ := Prod.mk.injEq .. ▸ h
              refine ⟨_, by rw [← h2], ?_⟩
              intro s' hsd hne
              obtain rfl : s = s' := by simpa using hsd
              exact absurd hse hne
            · cases hsp : s.parse with
              | err =>
                simp only [create_announcement, hauth, hp, if_neg hlt, hs,
                  if_neg hse, hsp] at h
                simp at h
              | aware t =>
                simp only [create_announcement, hauth, hp, if_neg hlt, hs,
                  if_neg hse, hsp] at h
                simp at h
              | naive ts =>
                by_cases hts : te ≤ ts
                · simp only [create_announcement, hauth, hp, if_neg hlt, hs,
                    if_neg hse, hsp, if_pos hts] at h
                  simp at h
                · simp only [create_announcement, hauth, hp, if_neg hlt, hs,
                    if_neg hse, hsp, if_neg hts] at h
                  obtain ⟨h1, h2⟩ := Prod.mk.injEq .. ▸ h
                  refine ⟨_, by rw [← h2], ?_⟩
                  intro s' hsd hne
                  obtain rfl : s = s' := by simpa using hsd
                  exact ⟨ts, te, hsp, hp, lt_of_not_le hts⟩
  · intro h
    cases hauth : authError u db with
    | some sm =>
      obtain ⟨s0, m0⟩ := sm
      simp only [delete_announcement, hauth] at h
      obtain ⟨h1, h2⟩ := Prod.mk.injEq .. ▸ h
      rw [← h2]
      intro d hd
      exact hd
    | none =>
      by_cases hv : isValidOid i = false
      · simp only [delete_announcement, hauth, if_pos hv] at h
        obtain ⟨h1, h2⟩ := Prod.mk.injEq .. ▸ h
        rw [← h2]
        intro d hd
        exact hd
      · by_cases hany : db.docs.any (fun d => d.oid == i) = true
        · simp only [delete_announcement, hauth, if_neg hv, hany, if_true,
            reduceIte] at h
          obtain ⟨h1, h2⟩ := Prod.mk.injEq .. ▸ h
          rw [← h2]
          intro d hd
          exact (List.eraseP_sublist _).mem hd
        · have hany' : db.docs.any (fun d => d.oid == i) = false := by
            simpa using hany
          simp only [delete_announcement, hauth, if_neg hv, hany'] at h
          obtain ⟨h1, h2⟩ := Prod.mk.injEq .. ▸ h
          rw [← h2]
          intro d hd
          exact (List.eraseP_sublist _).mem hd
  · intro t
    cases hauth : authError (t.getD "") db with
    | some sm =>
      obtain ⟨s0, m0⟩ := sm
      simp [get_all_announcements, hauth]
    | none =>
      simp [get_all_announcements, hauth]

/-- The document inserted by the witness create of C3 (amended). -/
def dW : Doc :=
  { oid := "000000000000000000000000", message := "w", start_date := some sA,
    expiration_date := eA, created_by := "alice",
    created_at := "2029-06-01T00:00:00" }

/-- Witness for C3 (amended): a concrete successful create appends one
document whose start parses strictly before its expiration. -/
theorem C3_amended_non_update_ops_preserve_witness :
    ∃ d, ({ docs := [dW], teachers := ["alice"], counter := 1 } : DB).docs =
        db0.docs ++ [d] ∧
      ∀ s, d.start_date = some s → s.raw ≠ "" →
        ∃ ts te, s.parse = ParseOut.naive ts ∧
          d.expiration_date.parse = ParseOut.naive te ∧ ts < te :=
  (C3_amended_non_update_ops_preserve db0
      { docs := [dW], teachers := ["alice"], counter := 1 } 500
      "2029-06-01T00:00:00" "alice" "ffffffffffffffffffffffff"
      ⟨"w", some sA, eA⟩ (toOut dW) (Outcome.ok "")).1 rfl

/-- C7 counterexample: a create that supplies the empty string as
`start_date` is accepted and inserted even though `""` does not parse as
ISO-8601: `if announcement.start_date:` is falsy on `""`, so the start-date
validation is skipped entirely, contradicting the claim that such a create
fails with InvalidInput and inserts nothing. -/
theorem C7_cex_empty_start_accepted :
    create_announcement 500 "2029-06-01T00:00:00"
        ⟨"hi", some emptyDate, eA⟩ "alice" db0 =
      (Outcome.ok
        { id := "000000000000000000000000", message := "hi",
          start_date := some emptyDate, expiration_date := eA,
          created_by := "alice", created_at := "2029-06-01T00:00:00" },
       { docs := [{ oid := "000000000000000000000000", message := "hi",
                    start_date := some emptyDate, expiration_date := eA,
                    created_by := "alice",
                    created_at := "2029-06-01T00:00:00" }],
         teachers := ["alice"], counter := 1 }) := rfl

/-- C7 (amended): for an authorized teacher whose `expiration_date` passes its
validation (parses offset-naive, not strictly past), a supplied non-empty
`start_date` must parse — else create fails with the bad-date-format
InvalidInput — and, when it parses offset-naive, its instant must be strictly
before the expiration instant — else create fails with the
start-not-before-expiration InvalidInput; in both failure cases nothing is
inserted. -/
theorem C7_amended_nonempty_start_validated (db : DB) (now : Int)
    (nowIso : String) (u : String) (annc : AnnouncementCreate) (s : DateStr)
    (te : Int)
    (hu : u ≠ "") (ht : db.teachers.contains u = true)
    (hpe : annc.expiration_date.parse = ParseOut.naive te) (hge : ¬ te < now)
    (hs : annc.start_date = some s) (hne : s.raw ≠ "") :
    (s.parse = ParseOut.err →
      create_announcement now nowIso annc u db =
        (Outcome.httpError 400
          "Invalid date format. Use ISO format (YYYY-MM-DDTHH:MM:SS)", db)) ∧
    (∀ ts, s.parse = ParseOut.naive ts → te ≤ ts →
      create_announcement now nowIso annc u db =
        (Outcome.httpError 400 "Start date must be before expiration date",
         db)) := by
  have ha := authError_ok db hu ht
  constructor
  · intro hsp
    simp [create_announcement, ha, hpe, hge, hs, hne, hsp]
  · intro ts hsp hle
    simp [create_announcement, ha, hpe, hge, hs, hne, hsp, hle]

/-- Witness for C7 (amended): a create whose start instant (2031) is after its
expiration instant (2030) is rejected 400 with an unchanged store. -/
theorem C7_amended_nonempty_start_validated_witness :
    create_announcement 500 "2029-06-01T00:00:00" ⟨"x", some sLate, eA⟩
        "alice" db0 =
      (Outcome.httpError 400 "Start date must be before expiration date",
       db0) :=
  (C7_amended_nonempty_start_validated db0 500 "2029-06-01T00:00:00" "alice"
      ⟨"x", some sLate, eA⟩ sLate 2000 (by decide) (by decide) rfl (by decide)
      rfl (by decide)).2 3000 rfl (by decide)

/-- C10: a syntactically valid ISO-8601 input carrying a timezone
(`2031-06-01T00:00:00Z`, rewritten by the code to `+00:00`) makes both create
and update terminate with an uncaught `TypeError` — neither success nor an
InvalidInput error — because the offset-aware parse result is compared against
the offset-naive `datetime.now()` and `except ValueError` does not catch
`TypeError`. -/
theorem C10_offset_aware_uncaught_typeerror :
    create_announcement 1500 "2030-02-01T00:00:00" ⟨"hi", none, eZ⟩ "alice"
        db0 =
      (Outcome.pyError "TypeError", db0) ∧
    update_announcement 1500 "000000000000000000000000" ⟨none, none, some eZ⟩
        "alice" dbA =
      (Outcome.pyError "TypeError", dbA) :=
  ⟨rfl, rfl⟩

/-- C4: update never re-checks the start/expiration ordering — for an
authorized teacher, an existing announcement with a `start_date`, and a new
`expiration_date` that parses offset-naive strictly in the future, the update
succeeds even though the new expiration string sorts strictly before the
unchanged start string (`strLe s.raw e.raw = false`), and the stored document
afterwards carries the old start and the new expiration. -/
theorem C4_update_no_ordering_recheck (db : DB) (now : Int) (u i : String)
    (m : Option String) (a : Doc) (s e : DateStr) (te : Int)
    (hu : u ≠ "") (ht : db.teachers.contains u = true)
    (hv : isValidOid i = true) (hfind : findOne i db = some a)
    (hs : a.start_date = some s)
    (hpe : e.parse = ParseOut.naive te) (hfut : now < te)
    (hbefore : strLe s.raw e.raw = false) :
    update_announcement now i ⟨m, none, some e⟩ u db =
      (Outcome.ok (toOut (applyPatch ⟨m, none, some e⟩ a)),
       { db with docs := updateFirst i ⟨m, none, some e⟩ db.docs }) ∧
    (applyPatch ⟨m, none, some e⟩ a).start_date = some s ∧
    (applyPatch ⟨m, none, some e⟩ a).expiration_date = e := by
  have ha := authError_ok db hu ht
  have hnl : ¬ te < now := lt_asymm hfut
  have hany := any_oid_of_findOne hfind
  have hfind2 : findOne i { db with docs := updateFirst i ⟨m, none, some e⟩ db.docs } =
      some (applyPatch ⟨m, none, some e⟩ a) :=
    find?_updateFirst i ⟨m, none, some e⟩ db.docs a (by simpa [findOne] using hfind)
  refine ⟨?_, ?_, ?_⟩
  · simp [update_announcement, ha, hv, hfind, hpe, hnl, UpdateDoc.isEmpty,
      hany, hfind2]
  · simp [applyPatch, hs]
  · simp [applyPatch]

/-- Witness for C4: updating `dA`'s expiration to `2029-12-15` — before its
unchanged start `2030-01-01` — succeeds. -/
theorem C4_update_no_ordering_recheck_witness :
    update_announcement 500 "000000000000000000000000"
        ⟨none, none, some eEarly⟩ "alice" dbA =
      (Outcome.ok (toOut (applyPatch ⟨none, none, some eEarly⟩ dA)),
       { dbA with
          docs := updateFirst "000000000000000000000000"
            ⟨none, none, some eEarly⟩ dbA.docs }) ∧
    (applyPatch ⟨none, none, some eEarly⟩ dA).start_date = some sA ∧
    (applyPatch ⟨none, none, some eEarly⟩ dA).expiration_date = eEarly :=
  C4_update_no_ordering_recheck dbA 500 "alice" "000000000000000000000000"
    none dA sA eEarly 900 (by decide) (by decide) (by decide) rfl rfl rfl
    (by decide) (by decide)

/-- C5: update has merge semantics — whenever it succeeds, the store's change
is exactly the patch of the supplied fields onto the first matching document:
each supplied field overwrites, each unsupplied field (and always `oid`,
`created_by`, `created_at`) retains its prior value, and the returned object
is the post-update entity.  In particular an update supplying only `message`
leaves `start_date` and `expiration_date` unchanged. -/
theorem C5_update_merge (db : DB) (now : Int) (u i : String)
    (ann : AnnouncementUpdate) (out : AnnOut) (db' : DB)
    (h : update_announcement now i ann u db = (Outcome.ok out, db')) :
    ∃ a a', findOne i db = some a ∧
      db' = { db with
        docs := updateFirst i
          ⟨ann.message, ann.start_date, ann.expiration_date⟩ db.docs } ∧
      findOne i db' = some a' ∧ out = toOut a' ∧
      a'.message = ann.message.getD a.message ∧
      a'.start_date = ann.start_date.or a.start_date ∧
      a'.expiration_date = ann.expiration_date.getD a.expiration_date ∧
      a'.oid = a.oid ∧ a'.created_by = a.created_by ∧
      a'.created_at = a.created_at := by
  cases hauth : authError u db with
  | some sm =>
    obtain ⟨s0, m0⟩ := sm
    simp only [update_announcement, hauth] at h
    simp at h
  | none =>
    by_cases hv : isValidOid i = false
    · simp only [update_announcement, hauth, if_pos hv] at h
      simp at h
    · obtain hfind | ⟨a, hfind⟩ := Option.eq_none_or_eq_some (findOne i db)
      · simp only [update_announcement, hauth, if_neg hv, hfind] at h
        simp at h
      · have hany := any_oid_of_findOne hfind
        have htail : ∀ upd : UpdateDoc,
            upd = ⟨ann.message, ann.start_date, ann.expiration_date⟩ →
            (if upd.isEmpty = true then
              (Outcome.httpError 400 "No fields to update", db)
            else
              if (if db.docs.any (fun d => d.oid == i) then 1 else 0) = 0 then
                (Outcome.httpError 500 "Failed to update announcement",
                 { db with docs := updateFirst i upd db.docs })
              else
                match findOne i { db with docs := updateFirst i upd db.docs } with
                | none =>
                    (Outcome.pyError "AttributeError",
                     { db with docs := updateFirst i upd db.docs })
                | some w =>
                    (Outcome.ok (toOut w),
                     { db with docs := updateFirst i upd db.docs })) =
              (Outcome.ok out, db') →
            ∃ a a', findOne i db = some a ∧
              db' = { db with
                docs := updateFirst i
                  ⟨ann.message, ann.start_date, ann.expiration_date⟩ db.docs } ∧
              findOne i db' = some a' ∧ out = toOut a' ∧
              a'.message = ann.message.getD a.message ∧
              a'.start_date = ann.start_date.or a.start_date ∧
              a'.expiration_date = ann.expiration_date.getD a.expiration_date ∧
              a'.oid = a.oid ∧ a'.created_by = a.created_by ∧
              a'.created_at = a.created_at := by
          intro upd hupd ht
          subst hupd
          by_cases hemp : UpdateDoc.isEmpty
              ⟨ann.message, ann.start_date, ann.expiration_date⟩ = true
          · rw [if_pos hemp] at ht
            simp at ht
          · rw [if_neg hemp, hany] at ht
            simp only [if_true, reduceIte] at ht
            have hfind2 : findOne i
                { db with
                  docs := updateFirst i
                    (⟨ann.message, ann.start_date, ann.expiration_date⟩ : UpdateDoc)
                    db.docs } =
                some (applyPatch
                  ⟨ann.message, ann.start_date, ann.expiration_date⟩ a) :=
              find?_updateFirst i _ db.docs a (by simpa [findOne] using hfind)
            rw [hfind2] at ht
            obtain ⟨h1, h2⟩ := Prod.mk.injEq .. ▸ ht
            obtain rfl : db' =
                { db with
                  docs := updateFirst i
                    (⟨ann.message, ann.start_date, ann.expiration_date⟩ : UpdateDoc)
                    db.docs } :=
              h2.symm
            refine ⟨a, applyPatch ⟨ann.message, ann.start_date, ann.expiration_date⟩ a,
              hfind, rfl, hfind2, (Outcome.ok.inj h1).symm, rfl, ?_, rfl, rfl, rfl, rfl⟩
            cases ann.start_date <;> rfl
        obtain he | ⟨e, he⟩ := Option.eq_none_or_eq_some ann.expiration_date
        · simp only [update_announcement, hauth, if_neg hv, hfind, he] at h
          exact htail ⟨ann.message, ann.start_date, none⟩ (by rw [he]) h
        · cases hp : e.parse with
          | err =>
            simp only [update_announcement, hauth, if_neg hv, hfind, he, hp] at h
            simp at h
          | aware t =>
            simp only [update_announcement, hauth, if_neg hv, hfind, he, hp] at h
            simp at h
          | naive te =>
            by_cases hlt : te < now
            · simp only [update_announcement, hauth, if_neg hv, hfind, he, hp,
                if_pos hlt] at h
              simp at h
            · simp only [update_announcement, hauth, if_neg hv, hfind, he, hp,
                if_neg hlt] at h
              exact htail ⟨ann.message, ann.start_date, some e⟩ (by rw [he]) h

/-- Witness for C5: a concrete message-only update of `dA` succeeds and the
merge characterization holds for it. -/
theorem C5_update_merge_witness :
    ∃ a a', findOne "000000000000000000000000" dbA = some a ∧
      ({ dbA with docs := [{ dA with message := "new" }] } : DB) =
        { dbA with
          docs := updateFirst "000000000000000000000000"
            (⟨some "new", none, none⟩ : UpdateDoc) dbA.docs } ∧
      findOne "000000000000000000000000"
          ({ dbA with docs := [{ dA with message := "new" }] } : DB) = some a' ∧
      toOut { dA with message := "new" } = toOut a' ∧
      a'.message = (some "new").getD a.message ∧
      a'.start_date = Option.or none a.start_date ∧
      a'.expiration_date = Option.getD none a.expiration_date ∧
      a'.oid = a.oid ∧ a'.created_by = a.created_by ∧
      a'.created_at = a.created_at :=
  C5_update_merge dbA 1500 "alice" "000000000000000000000000"
    ⟨some "new", none, none⟩ (toOut { dA with message := "new" })
    { dbA with docs := [{ dA with message := "new" }] } rfl

end Announcements
